import Mathlib

/-!
Verification of the quiz/exam runner in `src/App.tsx` (a single React
component).  The component state — `questions`, `currentQuestion`,
`userAnswers`, `showResults`, `examStarted`, `uploadError` — is embedded as a
Lean structure, the event handlers as pure state-transition functions, and the
upload-time JSON validation as functions over an inductive JSON value type.

Modelling conventions:
* JavaScript numbers are modelled as `ℚ` (the values that occur are exact).
* The sparse answer object `Record<number, number>` is modelled as an
  association list with unique keys; `Object.keys(m).length` is the list
  length, spread-with-override is modelled by cons after removing the key.
* `Number.prototype.toFixed(1)` is modelled as exact rounding of a rational to
  one decimal place (round happens on the exact value; the ties-at-binary
  boundary behaviour of IEEE doubles is out of scope).
* The four rendered screens give the derived session phase, in the order the
  component tests them: Upload (no questions), Results (`showResults`),
  Pre-Exam (`!examStarted`), Exam.
-/

/-! ## JSON values and the upload validator (`handleFileUpload`, lines 30–52) -/

/-- A parsed JSON value, as produced by `JSON.parse`. -/
inductive JsonVal where
  | null
  | jbool (b : Bool)
  | jnum (q : ℚ)
  | jstr (s : String)
  | jarr (elems : List JsonVal)
  | jobj (fields : List (String × JsonVal))

/-- JavaScript truthiness of a value (`!v` is `!truthy v`). -/
def truthy : JsonVal → Bool
  | .null => false
  | .jbool b => b
  | .jnum q => decide (q ≠ 0)
  | .jstr s => decide (s ≠ "")
  | .jarr _ => true
  | .jobj _ => true

/-- Property access `v[name]` on a non-null value; `none` is `undefined`. -/
def getField (v : JsonVal) (name : String) : Option JsonVal :=
  match v with
  | .jobj fs => (fs.find? (fun p => decide (p.1 = name))).map Prod.snd
  | _ => none

/-- Truthiness of a possibly-`undefined` value (`undefined` is falsy). -/
def truthyOpt : Option JsonVal → Bool
  | none => false
  | some v => truthy v

/-- `Array.isArray(v)` for a possibly-`undefined` value. -/
def isArrayOpt : Option JsonVal → Bool
  | some (.jarr _) => true
  | _ => false

/-- `typeof v === "number"` for a possibly-`undefined` value. -/
def isNumberOpt : Option JsonVal → Bool
  | some (.jnum _) => true
  | _ => false

/-- The required-field check of lines 44–49: `question` present and truthy,
`choices` present, `choices` an array, `answer` a number. -/
def requiredFieldsOk (q : JsonVal) : Bool :=
  truthyOpt (getField q "question") &&
  truthyOpt (getField q "choices") &&
  isArrayOpt (getField q "choices") &&
  isNumberOpt (getField q "answer")

/-- Checking one element of the uploaded array.  Reading `q.question` on a
`null` element throws a `TypeError` (caught by the surrounding `catch`), so the
structure check itself is only reached for non-null elements. -/
def checkElement (q : JsonVal) : Except String Bool :=
  match q with
  | .null => Except.error "TypeError: Cannot read properties of null"
  | _ => Except.ok (requiredFieldsOk q)

/-- The `forEach` of lines 43–52: elements are checked in order, and the first
failure throws `Invalid question structure at index i`. -/
def validateFrom (i : ℕ) : List JsonVal → Except String Unit
  | [] => Except.ok ()
  | q :: rest =>
    match checkElement q with
    | Except.error e => Except.error e
    | Except.ok true => validateFrom (i + 1) rest
    | Except.ok false =>
        Except.error ("Invalid question structure at index " ++ toString i)

/-- Lines 39–52: the parsed document must be an array, and every element must
pass the structure check; on success the array is returned verbatim. -/
def validateUpload (v : JsonVal) : Except String (List JsonVal) :=
  match v with
  | .jarr xs =>
    match validateFrom 0 xs with
    | Except.ok _ => Except.ok xs
    | Except.error e => Except.error e
  | _ => Except.error "JSON must be an array of questions"

/-! ## Session state (the component's `useState` hooks) -/

/-- The `Question` interface of lines 10–15. -/
structure Question where
  question : String
  choices : List String
  answer : ℚ
  reason : Option String := none
deriving DecidableEq

/-- `Record<number, number>`: the sparse map from question index to selected
choice index, as an association list with unique keys. -/
abbrev AnswerMap := List (ℕ × ℚ)

/-- Lookup `m[k]`; `none` is `undefined`. -/
def lookupAns (m : AnswerMap) (k : ℕ) : Option ℚ :=
  (m.find? (fun p => decide (p.1 = k))).map Prod.snd

/-- The spread `{...prev, [k]: v}`: the entry for `k` is overwritten (removed,
then re-added), every other entry is kept. -/
def setAns (m : AnswerMap) (k : ℕ) (v : ℚ) : AnswerMap :=
  (k, v) :: m.filter (fun p => decide (p.1 ≠ k))

/-- The six `useState` hooks of lines 18–23. -/
structure AppState where
  questions : List Question
  currentQuestion : ℕ
  userAnswers : AnswerMap
  showResults : Bool
  examStarted : Bool
  uploadError : String
deriving DecidableEq

/-- The initial component state. -/
def initialState : AppState :=
  { questions := []
    currentQuestion := 0
    userAnswers := []
    showResults := false
    examStarted := false
    uploadError := "" }

/-- The session phase, one per rendered screen. -/
inductive Phase where
  | empty
  | ready
  | inProgress
  | results
deriving DecidableEq

/-- The screen-selection chain of lines 126, 176, 313: Upload when no
questions are loaded, else Results when `showResults`, else Pre-Exam when the
exam has not started, else the Exam screen. -/
def phase (s : AppState) : Phase :=
  if s.questions.length = 0 then Phase.empty
  else if s.showResults then Phase.results
  else if s.examStarted = false then Phase.ready
  else Phase.inProgress

/-! ## Event handlers -/

/-- The success branch of `handleFileUpload` (lines 54–59): install the new
set, clear answers, reset position and flags, clear the error message. -/
def loadQuestions (s : AppState) (qs : List Question) : AppState :=
  { s with
    questions := qs
    userAnswers := []
    currentQuestion := 0
    showResults := false
    examStarted := false
    uploadError := "" }

/-- `handleFileUpload`, keyed on the outcome of read + parse + validate inside
the `try` block: any thrown error (`ReadError`, `ParseError`,
`StructureError`) reaches the `catch` (lines 60–65), which only records the
user-facing message; success runs `loadQuestions`. -/
def handleFileUpload (s : AppState) (outcome : Except String (List Question)) :
    AppState :=
  match outcome with
  | Except.ok qs => loadQuestions s qs
  | Except.error _ =>
      { s with uploadError := "Invalid JSON format. Please check your file structure." }

/-- `handleAnswerSelect` (lines 70–75). -/
def handleAnswerSelect (s : AppState) (answerIndex : ℚ) : AppState :=
  { s with userAnswers := setAns s.userAnswers s.currentQuestion answerIndex }

/-- `nextQuestion` (lines 77–81); the comparison is JavaScript arithmetic, so
`questions.length - 1` is taken in `ℤ`. -/
def nextQuestion (s : AppState) : AppState :=
  if (s.currentQuestion : ℤ) < (s.questions.length : ℤ) - 1 then
    { s with currentQuestion := s.currentQuestion + 1 }
  else s

/-- `prevQuestion` (lines 83–87). -/
def prevQuestion (s : AppState) : AppState :=
  if 0 < s.currentQuestion then
    { s with currentQuestion := s.currentQuestion - 1 }
  else s

/-- `finishExam` (lines 89–91). -/
def finishExam (s : AppState) : AppState :=
  { s with showResults := true }

/-- `restartExam` (lines 93–98). -/
def restartExam (s : AppState) : AppState :=
  { s with
    userAnswers := []
    currentQuestion := 0
    showResults := false
    examStarted := false }

/-- The `Upload New Quiz` button (lines 225–231): clear everything and return
to the upload screen. -/
def resetToUpload (s : AppState) : AppState :=
  { s with
    questions := []
    userAnswers := []
    currentQuestion := 0
    showResults := false
    examStarted := false }

/-- The `Start Exam` button (line 326). -/
def startExam (s : AppState) : AppState :=
  { s with examStarted := true }

/-! ## Scoring (`calculateResults`, lines 100–116, and `getScoreColor`) -/

/-- The summary returned by `calculateResults`.  `score` holds the numeric
value of the source's `toFixed(1)` string (or the number `0`). -/
structure Results where
  totalQuestions : ℕ
  answeredQuestions : ℕ
  correctAnswers : ℕ
  score : ℚ
deriving DecidableEq

/-- `Number.prototype.toFixed(1)`, as exact rounding to one decimal place. -/
def toFixed1 (x : ℚ) : ℚ :=
  (round (x * 10) : ℤ) / 10

/-- The indexed `reduce` of lines 103–105: starting at index `i`, add 1 for
each question whose recorded answer strictly equals its `answer` field
(`undefined === n` is false, so unanswered questions contribute 0). -/
def correctFrom (m : AnswerMap) (i : ℕ) : List Question → ℕ
  | [] => 0
  | q :: rest =>
      (if lookupAns m i = some q.answer then 1 else 0) + correctFrom m (i + 1) rest

/-- `calculateResults` (lines 100–116), as a function of the state it reads. -/
def calculateResults (qs : List Question) (m : AnswerMap) : Results :=
  { totalQuestions := qs.length
    answeredQuestions := m.length
    correctAnswers := correctFrom m 0 qs
    score :=
      if 0 < qs.length then
        toFixed1 ((correctFrom m 0 qs : ℚ) / (qs.length : ℚ) * 100)
      else 0 }

/-- The incorrect count rendered on line 202:
`results.totalQuestions - results.correctAnswers`. -/
def incorrectDisplayed (r : Results) : ℕ :=
  r.totalQuestions - r.correctAnswers

/-- `getScoreColor` (lines 118–123), on the numeric value of the score. -/
def getScoreColor (score : ℚ) : String :=
  if 80 ≤ score then "text-green-600"
  else if 60 ≤ score then "text-yellow-600"
  else "text-red-600"

/-- The banding `getScoreColor` realises, under the names the design document
uses: green is the "high" band, yellow "medium", red "low". -/
def classify (score : ℚ) : String :=
  if getScoreColor score = "text-green-600" then "high"
  else if getScoreColor score = "text-yellow-600" then "medium"
  else "low"

/-! ## Spec-side formulations (for refinement-style comparison) -/

/-- Spec formulation: the number of distinct keys present in the answer map. -/
def distinctKeyCount (m : AnswerMap) : ℕ :=
  (m.map Prod.fst).dedup.length

/-- Spec formulation: the number of indices `i` of the question set for which
`m[i]` exists and equals `questionSet[i].answer`. -/
def specCorrectCount (qs : List Question) (m : AnswerMap) : ℕ :=
  ((List.range qs.length).filter
    (fun i => decide ((lookupAns m i).isSome ∧
      lookupAns m i = (qs.get? i).map Question.answer))).length

/-- Spec formulation: rounding to one decimal place. -/
def round1 (x : ℚ) : ℚ :=
  (round (x * 10) : ℤ) / 10

/-! ## Reachable states -/

/-- The user intents the component exposes. -/
inductive Op where
  | upload (outcome : Except String (List Question))
  | start
  | select (a : ℚ)
  | next
  | prev
  | finish
  | restart
  | reset

/-- One user intent applied to the state.  Except for `upload` (whose handler
supersedes any session), each handler can only fire from the screen that
renders its control, so it is gated on the corresponding phase. -/
def applyOp (s : AppState) : Op → AppState
  | .upload o => handleFileUpload s o
  | .start => if phase s = Phase.ready then startExam s else s
  | .select a => if phase s = Phase.inProgress then handleAnswerSelect s a else s
  | .next => if phase s = Phase.inProgress then nextQuestion s else s
  | .prev => if phase s = Phase.inProgress then prevQuestion s else s
  | .finish => if phase s = Phase.inProgress then finishExam s else s
  | .restart => if phase s = Phase.results then restartExam s else s
  | .reset => if phase s = Phase.results then resetToUpload s else s

/-- States reachable from the initial (empty) state by user intents. -/
inductive Reachable : AppState → Prop where
  | init : Reachable initialState
  | step (s : AppState) (op : Op) : Reachable s → Reachable (applyOp s op)

/-- The session invariant: answer-map keys are unique and in range, and the
position is in range whenever a question set is loaded (position 0 otherwise).
-/
def SessionInv (s : AppState) : Prop :=
  (s.userAnswers.map Prod.fst).Nodup ∧
  (∀ k ∈ s.userAnswers.map Prod.fst, k < s.questions.length) ∧
  (s.currentQuestion = 0 ∨ s.currentQuestion < s.questions.length)

/-! ## Concrete example data -/

/-- A sample question: `1+1?` with choices `1/2/3`, correct choice index 1. -/
def exampleQ1 : Question :=
  { question := "1+1?", choices := ["1", "2", "3"], answer := 1 }

/-- A sample question: `2+2?` with choices `3/4`, correct choice index 1. -/
def exampleQ2 : Question :=
  { question := "2+2?", choices := ["3", "4"], answer := 1 }

/-- A third sample question. -/
def exampleQ3 : Question :=
  { question := "3+3?", choices := ["5", "6"], answer := 1 }

/-- The two-question set of the round-trip scoring example. -/
def exampleQs2 : List Question := [exampleQ1, exampleQ2]

/-- A three-question set. -/
def exampleQs3 : List Question := [exampleQ1, exampleQ2, exampleQ3]

/-- Answers `{0:1, 1:0}`: question 0 right, question 1 wrong. -/
def exampleAns2 : AnswerMap := [(0, 1), (1, 0)]

/-- Answers `{0:1}`: only question 0 answered, correctly. -/
def exampleAns3 : AnswerMap := [(0, 1)]

/-- An in-progress session over `exampleQs2` with question 0 answered. -/
def exampleInProgress : AppState :=
  { questions := exampleQs2
    currentQuestion := 0
    userAnswers := [(0, 1)]
    showResults := false
    examStarted := true
    uploadError := "" }

/-- A well-formed uploaded JSON question element. -/
def goodElemJson : JsonVal :=
  JsonVal.jobj
    [("question", JsonVal.jstr "1+1?"),
     ("choices", JsonVal.jarr [JsonVal.jstr "1", JsonVal.jstr "2"]),
     ("answer", JsonVal.jnum 1)]

/-- A malformed element: `choices` and `answer` are missing. -/
def badElemJson : JsonVal :=
  JsonVal.jobj [("question", JsonVal.jstr "oops")]

/-! ## Helper lemmas -/

theorem lookupAns_setAns_self (m : AnswerMap) (k : ℕ) (v : ℚ) :
    lookupAns (setAns m k v) k = some v := by
  unfold lookupAns setAns
  simp [List.find?_cons]

theorem find?_filter_ne (m : AnswerMap) (k k2 : ℕ) (h : k2 ≠ k) :
    (m.filter (fun p => decide (p.1 ≠ k))).find? (fun p => decide (p.1 = k2)) =
      m.find? (fun p => decide (p.1 = k2)) := by
  rw [List.find?_filter]
  congr 1
  funext a
  by_cases ha2 : a.1 = k2
  · simp [ha2, h]
  · simp [ha2]

theorem lookupAns_setAns_other (m : AnswerMap) (k k2 : ℕ) (v : ℚ) (h : k2 ≠ k) :
    lookupAns (setAns m k v) k2 = lookupAns m k2 := by
  unfold lookupAns setAns
  have hkk : ¬ k = k2 := fun hh => h hh.symm
  rw [List.find?_cons_of_neg _ (by simpa using hkk), find?_filter_ne m k k2 h]

theorem phase_inProgress_iff (s : AppState) :
    phase s = Phase.inProgress ↔
      s.questions ≠ [] ∧ s.showResults = false ∧ s.examStarted = true := by
  unfold phase
  split_ifs with h1 h2 h3 <;>
    simp_all [List.length_eq_zero]

theorem phase_handleAnswerSelect (s : AppState) (a : ℚ) :
    phase (handleAnswerSelect s a) = phase s := by
  simp [phase, handleAnswerSelect]

theorem map_fst_filter_ne (m : AnswerMap) (k : ℕ) :
    (m.filter (fun p => decide (p.1 ≠ k))).map Prod.fst =
      (m.map Prod.fst).filter (fun x => decide (x ≠ k)) := by
  simp only [ne_eq, decide_not]
  induction m with
  | nil => rfl
  | cons a rest ih =>
    by_cases ha : a.1 = k <;> simp [List.filter_cons, ha, ih]

theorem classify_eq_bands (s : ℚ) :
    classify s = if 80 ≤ s then "high" else if 60 ≤ s then "medium" else "low" := by
  unfold classify getScoreColor
  by_cases h80 : 80 ≤ s
  · simp [h80]
  · by_cases h60 : 60 ≤ s <;> simp [h80, h60]

/-- A finished session over the two-question example set (Results screen). -/
def exampleResults : AppState :=
  { questions := exampleQs2
    currentQuestion := 1
    userAnswers := [(0, 1), (1, 0)]
    showResults := true
    examStarted := true
    uploadError := "" }

/-- **C3 (counterexample)**: the empty array `[]` passes validation (it is an
array and the element check is vacuous), but loading it does not land in phase
`Ready`: with no questions the component renders the Upload screen, i.e. phase
`Empty`. -/
theorem load_empty_set_lands_empty :
    validateUpload (JsonVal.jarr []) = Except.ok [] ∧
    phase (handleFileUpload exampleInProgress (Except.ok ([] : List Question))) =
      Phase.empty ∧
    Phase.empty ≠ Phase.ready :=
  ⟨rfl, rfl, by decide⟩

/-- **C3 (amended)**: from any session state — including `InProgress` with a
partially filled answer map — loading a successfully validated *nonempty*
question set `qs` installs `qs`, clears the answer map, resets the position to
0, and lands in phase `Ready`. -/
theorem load_supersedes_session (s : AppState) (qs : List Question) (h : qs ≠ []) :
    (handleFileUpload s (Except.ok qs)).questions = qs ∧
    (handleFileUpload s (Except.ok qs)).userAnswers = [] ∧
    (handleFileUpload s (Except.ok qs)).currentQuestion = 0 ∧
    phase (handleFileUpload s (Except.ok qs)) = Phase.ready := by
  refine ⟨rfl, rfl, rfl, ?_⟩
  simp [handleFileUpload, loadQuestions, phase, List.length_eq_zero, h]

/-- Witness for C3: loading `[exampleQ3]` over an in-progress session. -/
theorem load_supersedes_session_witness :
    (handleFileUpload exampleInProgress (Except.ok [exampleQ3])).questions = [exampleQ3] ∧
    (handleFileUpload exampleInProgress (Except.ok [exampleQ3])).userAnswers = [] ∧
    (handleFileUpload exampleInProgress (Except.ok [exampleQ3])).currentQuestion = 0 ∧
    phase (handleFileUpload exampleInProgress (Except.ok [exampleQ3])) = Phase.ready :=
  load_supersedes_session exampleInProgress [exampleQ3] (by decide)

/-- **C5**: `getScoreColor` (under the band names of the spec: green = high,
yellow = medium, red = low) returns "high" exactly when the score is at least
80, "medium" exactly when it is in `[60, 80)`, "low" exactly when it is below
60; in particular at 79.99, 80, 59.99 and 60. -/
theorem classify_band_boundaries (s : ℚ) :
    (classify s = "high" ↔ 80 ≤ s) ∧
    (classify s = "medium" ↔ 60 ≤ s ∧ s < 80) ∧
    (classify s = "low" ↔ s < 60) ∧
    classify (7999 / 100) = "medium" ∧ classify 80 = "high" ∧
    classify (5999 / 100) = "low" ∧ classify 60 = "medium" := by
  have c1 : classify (7999 / 100) = "medium" := by rw [classify_eq_bands]; norm_num
  have c2 : classify (80 : ℚ) = "high" := by rw [classify_eq_bands]; norm_num
  have c3 : classify (5999 / 100) = "low" := by rw [classify_eq_bands]; norm_num
  have c4 : classify (60 : ℚ) = "medium" := by rw [classify_eq_bands]; norm_num
  refine ⟨?_, ?_, ?_, c1, c2, c3, c4⟩ <;>
    · rw [classify_eq_bands]
      split_ifs with h1 h2 <;> simp_all <;> try linarith

/-- **C6**: a failed upload — whatever the thrown error (`ReadError`,
`ParseError`, `StructureError`) — leaves the question set, the answer map, the
current position and the phase exactly as they were; only the user-facing
error message is recorded. -/
theorem upload_failure_preserves_state (s : AppState) (e : String) :
    (handleFileUpload s (Except.error e)).questions = s.questions ∧
    (handleFileUpload s (Except.error e)).userAnswers = s.userAnswers ∧
    (handleFileUpload s (Except.error e)).currentQuestion = s.currentQuestion ∧
    phase (handleFileUpload s (Except.error e)) = phase s ∧
    (handleFileUpload s (Except.error e)).uploadError =
      "Invalid JSON format. Please check your file structure." :=
  ⟨rfl, rfl, rfl, rfl, rfl⟩

/-- **C7**: in an `InProgress` session, selecting any choice index (no bounds
check against the choice count) stores it for the current position,
overwriting any prior value there, and leaves every other answer-map key, the
question set, the position and the phase unchanged. -/
theorem select_answer_frame (s : AppState) (a : ℚ)
    (h : phase s = Phase.inProgress) :
    lookupAns (handleAnswerSelect s a).userAnswers s.currentQuestion = some a ∧
    (∀ k, k ≠ s.currentQuestion →
      lookupAns (handleAnswerSelect s a).userAnswers k = lookupAns s.userAnswers k) ∧
    (handleAnswerSelect s a).questions = s.questions ∧
    (handleAnswerSelect s a).currentQuestion = s.currentQuestion ∧
    phase (handleAnswerSelect s a) = phase s :=
  ⟨lookupAns_setAns_self _ _ _,
   fun k hk => lookupAns_setAns_other _ _ _ _ hk,
   rfl, rfl, phase_handleAnswerSelect s a⟩

/-- Witness for C7: selecting the out-of-range index 5 at position 0 of
`exampleInProgress` (question 0 was already answered with 1 and is
overwritten; the answer recorded for key 1 is untouched). -/
theorem select_answer_frame_witness :
    lookupAns (handleAnswerSelect exampleInProgress 5).userAnswers 0 = some 5 ∧
    lookupAns (handleAnswerSelect exampleInProgress 5).userAnswers 1 =
      lookupAns exampleInProgress.userAnswers 1 ∧
    (handleAnswerSelect exampleInProgress 5).questions = exampleInProgress.questions ∧
    (handleAnswerSelect exampleInProgress 5).currentQuestion = 0 ∧
    phase (handleAnswerSelect exampleInProgress 5) = phase exampleInProgress := by
  obtain ⟨h1, h2, h3, h4, h5⟩ := select_answer_frame exampleInProgress 5 (by decide)
  exact ⟨h1, h2 1 (by decide), h3, h4, h5⟩

/-- **C8**: in an `InProgress` session over `N` questions with the position in
range, `nextQuestion` increments the position exactly when it is strictly
below `N - 1` and otherwise changes nothing (no wrap, no error);
`prevQuestion` decrements exactly when the position is strictly positive and
is otherwise a no-op; neither moves the position outside `[0, N-1]`. -/
theorem navigation_bounds (s : AppState) (h1 : phase s = Phase.inProgress)
    (h2 : s.currentQuestion < s.questions.length) :
    (s.currentQuestion < s.questions.length - 1 →
      (nextQuestion s).currentQuestion = s.currentQuestion + 1) ∧
    (¬ s.currentQuestion < s.questions.length - 1 → nextQuestion s = s) ∧
    (0 < s.currentQuestion →
      (prevQuestion s).currentQuestion = s.currentQuestion - 1) ∧
    (s.currentQuestion = 0 → prevQuestion s = s) ∧
    (nextQuestion s).currentQuestion < s.questions.length ∧
    (prevQuestion s).currentQuestion < s.questions.length := by
  have hne : s.questions ≠ [] := ((phase_inProgress_iff s).1 h1).1
  have hN0 : 0 < s.questions.length := List.length_pos.2 hne
  refine ⟨fun hlt => ?_, fun hge => ?_, fun hpos => ?_, fun h0 => ?_, ?_, ?_⟩
  · rw [nextQuestion, if_pos (by omega)]
  · rw [nextQuestion, if_neg (by omega)]
  · rw [prevQuestion, if_pos hpos]
  · rw [prevQuestion, if_neg (by omega)]
  · rw [nextQuestion]
    split_ifs with hg
    · show s.currentQuestion + 1 < s.questions.length
      omega
    · exact h2
  · rw [prevQuestion]
    split_ifs with hg
    · show s.currentQuestion - 1 < s.questions.length
      omega
    · exact h2

/-- Witness for C8 at `exampleInProgress` (two questions, position 0). -/
theorem navigation_bounds_witness :
    phase exampleInProgress = Phase.inProgress ∧
    exampleInProgress.currentQuestion < exampleInProgress.questions.length ∧
    (nextQuestion exampleInProgress).currentQuestion <
      exampleInProgress.questions.length ∧
    (prevQuestion exampleInProgress).currentQuestion <
      exampleInProgress.questions.length := by
  have h := navigation_bounds exampleInProgress (by decide) (by decide)
  exact ⟨by decide, by decide, h.2.2.2.2.1, h.2.2.2.2.2⟩

/-- **C9 (counterexample)**: `restartExam` does not land in `Ready` from every
session state: after loading the (successfully validated) empty question set,
restarting leaves the component on the Upload screen, phase `Empty`. -/
theorem restart_after_empty_load_not_ready :
    phase (restartExam (handleFileUpload initialState (Except.ok ([] : List Question)))) =
      Phase.empty ∧
    Phase.empty ≠ Phase.ready :=
  ⟨rfl, by decide⟩

/-- **C9 (amended)**: from any session state whose loaded question set is
nonempty, `restartExam` clears the answer map, resets the position to 0,
retains the question set unchanged, and lands in phase `Ready`. -/
theorem restart_resets_and_keeps_questions (s : AppState) (h : s.questions ≠ []) :
    (restartExam s).userAnswers = [] ∧
    (restartExam s).currentQuestion = 0 ∧
    (restartExam s).questions = s.questions ∧
    phase (restartExam s) = Phase.ready := by
  refine ⟨rfl, rfl, rfl, ?_⟩
  simp [restartExam, phase, List.length_eq_zero, h]

/-- Witness for C9: restarting from the Results screen of the two-question
session. -/
theorem restart_resets_witness :
    (restartExam exampleResults).userAnswers = [] ∧
    (restartExam exampleResults).currentQuestion = 0 ∧
    (restartExam exampleResults).questions = exampleResults.questions ∧
    phase (restartExam exampleResults) = Phase.ready :=
  restart_resets_and_keeps_questions exampleResults (by decide)

theorem correctFrom_eq_countP (m : AnswerMap) (qs : List Question) :
    ∀ (i : ℕ),
      correctFrom m i qs = (List.range qs.length).countP
        (fun j => decide ((lookupAns m (i + j)).isSome ∧
          lookupAns m (i + j) = (qs.get? j).map Question.answer)) := by
  induction qs with
  | nil => intro i; simp [correctFrom]
  | cons q rest ih =>
    intro i
    rw [correctFrom, ih (i + 1), List.length_cons, List.range_succ_eq_map,
      List.countP_cons, List.countP_map]
    have hfun : ((fun j => decide ((lookupAns m (i + j)).isSome ∧
        lookupAns m (i + j) = ((q :: rest).get? j).map Question.answer)) ∘ Nat.succ) =
        (fun j => decide ((lookupAns m (i + 1 + j)).isSome ∧
          lookupAns m (i + 1 + j) = (rest.get? j).map Question.answer)) := by
      funext j
      have hj : i + Nat.succ j = i + 1 + j := by omega
      simp only [Function.comp, hj, List.get?_cons_succ]
    rw [hfun, Nat.add_comm]
    congr 1
    cases hL : lookupAns m i <;> simp [Nat.add_zero, hL]

theorem correctCount_eq_spec (qs : List Question) (m : AnswerMap) :
    correctFrom m 0 qs = specCorrectCount qs m := by
  rw [correctFrom_eq_countP m qs 0]
  unfold specCorrectCount
  rw [List.countP_eq_length_filter]
  have hfun : (fun j => decide ((lookupAns m (0 + j)).isSome ∧
      lookupAns m (0 + j) = (qs.get? j).map Question.answer)) =
      (fun i => decide ((lookupAns m i).isSome ∧
        lookupAns m i = (qs.get? i).map Question.answer)) := by
    funext j
    simp only [Nat.zero_add]
  rw [hfun]

theorem length_le_of_nodup_subset {l1 l2 : List ℕ} (h1 : l1.Nodup)
    (h : ∀ x ∈ l1, x ∈ l2) : l1.length ≤ l2.length := by
  calc l1.length = l1.toFinset.card := (List.toFinset_card_of_nodup h1).symm
    _ ≤ l2.toFinset.card := Finset.card_le_card (fun x hx =>
        List.mem_toFinset.2 (h x (List.mem_toFinset.1 hx)))
    _ ≤ l2.length := List.toFinset_card_le l2

theorem mem_keys_of_lookupAns_isSome (m : AnswerMap) (k : ℕ)
    (h : (lookupAns m k).isSome) : k ∈ m.map Prod.fst := by
  unfold lookupAns at h
  cases hf : m.find? (fun p => decide (p.1 = k)) with
  | none => rw [hf] at h; simp at h
  | some a =>
    have hk : a.1 = k := by
      have := List.find?_some hf
      simpa using this
    exact hk ▸ List.mem_map_of_mem Prod.fst (List.mem_of_find?_eq_some hf)

theorem correct_le_answered (qs : List Question) (m : AnswerMap) :
    correctFrom m 0 qs ≤ m.length := by
  rw [correctFrom_eq_countP m qs 0, List.countP_eq_length_filter]
  have hlen : m.length = (m.map Prod.fst).length := (List.length_map _ _).symm
  rw [hlen]
  refine length_le_of_nodup_subset (List.Nodup.filter _ (List.nodup_range _)) ?_
  intro x hx
  have hpx := List.of_mem_filter hx
  have hsome : (lookupAns m x).isSome := by
    have := of_decide_eq_true hpx
    simpa [Nat.zero_add] using this.1
  exact mem_keys_of_lookupAns_isSome m x hsome

theorem answered_le_total (qs : List Question) (m : AnswerMap)
    (hnd : (m.map Prod.fst).Nodup)
    (hbound : ∀ k ∈ m.map Prod.fst, k < qs.length) :
    m.length ≤ qs.length := by
  have hsub : ∀ x ∈ m.map Prod.fst, x ∈ List.range qs.length :=
    fun x hx => List.mem_range.2 (hbound x hx)
  calc m.length = (m.map Prod.fst).length := (List.length_map _ _).symm
    _ ≤ (List.range qs.length).length := length_le_of_nodup_subset hnd hsub
    _ = qs.length := List.length_range _

/-- **C1**: `calculateResults` returns `total` = number of questions,
`answered` = number of distinct keys of the answer map, `correct` = number of
indices whose recorded answer exists and equals the question's `answer`; the
displayed incorrect count is `total - correct` (so unanswered questions count
as incorrect); and the 3-question set with only question 0 answered correctly
yields `correct=1, answered=1, incorrect=2, total=3`. -/
theorem summarize_counts (qs : List Question) (m : AnswerMap)
    (hnd : (m.map Prod.fst).Nodup) :
    (calculateResults qs m).totalQuestions = qs.length ∧
    (calculateResults qs m).answeredQuestions = distinctKeyCount m ∧
    (calculateResults qs m).correctAnswers = specCorrectCount qs m ∧
    incorrectDisplayed (calculateResults qs m) = qs.length - specCorrectCount qs m ∧
    (calculateResults exampleQs3 exampleAns3).correctAnswers = 1 ∧
    (calculateResults exampleQs3 exampleAns3).answeredQuestions = 1 ∧
    incorrectDisplayed (calculateResults exampleQs3 exampleAns3) = 2 ∧
    (calculateResults exampleQs3 exampleAns3).totalQuestions = 3 := by
  refine ⟨rfl, ?_, correctCount_eq_spec qs m, ?_,
    by decide, by decide, by decide, by decide⟩
  · show m.length = distinctKeyCount m
    unfold distinctKeyCount
    rw [List.Nodup.dedup hnd, List.length_map]
  · show qs.length - correctFrom m 0 qs = qs.length - specCorrectCount qs m
    rw [correctCount_eq_spec qs m]

/-- Witness for C1 at the two-question example. -/
theorem summarize_counts_witness :
    (exampleAns2.map Prod.fst).Nodup ∧
    (calculateResults exampleQs2 exampleAns2).answeredQuestions =
      distinctKeyCount exampleAns2 ∧
    (calculateResults exampleQs2 exampleAns2).correctAnswers =
      specCorrectCount exampleQs2 exampleAns2 := by
  have h := summarize_counts exampleQs2 exampleAns2 (by decide)
  exact ⟨by decide, h.2.1, h.2.2.1⟩

/-- **C4**: the score is 0 when there are no questions (never undefined in the
model), and otherwise `correct / total * 100` rounded to one decimal place; on
the two-question example with answers `{0:1, 1:0}` it is `50.0` with
`total=2, answered=2, correct=1`. -/
theorem score_percent_spec (qs : List Question) (m : AnswerMap) :
    (calculateResults qs m).score =
      (if qs.length = 0 then 0
       else round1 (((calculateResults qs m).correctAnswers : ℚ) /
         ((calculateResults qs m).totalQuestions : ℚ) * 100)) ∧
    (calculateResults exampleQs2 exampleAns2).totalQuestions = 2 ∧
    (calculateResults exampleQs2 exampleAns2).answeredQuestions = 2 ∧
    (calculateResults exampleQs2 exampleAns2).correctAnswers = 1 ∧
    (calculateResults exampleQs2 exampleAns2).score = 50 := by
  refine ⟨?_, rfl, rfl, by decide, ?_⟩
  · rcases Nat.eq_zero_or_pos qs.length with h | h
    · simp [calculateResults, h]
    · simp [calculateResults, round1, toFixed1, h, h.ne']
  · show (calculateResults exampleQs2 exampleAns2).score = 50
    have h1 : correctFrom exampleAns2 0 exampleQs2 = 1 := by decide
    have h2 : exampleQs2.length = 2 := by decide
    simp only [calculateResults, h1, h2]
    norm_num [toFixed1]

theorem checkElement_ne_null (q : JsonVal) (h : q ≠ JsonVal.null) :
    checkElement q = Except.ok (requiredFieldsOk q) := by
  cases q <;> first | exact absurd rfl h | rfl

theorem validateFrom_append (pre : List JsonVal) :
    ∀ (i : ℕ) (rest : List JsonVal),
      (∀ q ∈ pre, checkElement q = Except.ok true) →
      validateFrom i (pre ++ rest) = validateFrom (i + pre.length) rest := by
  induction pre with
  | nil => intro i rest _; simp
  | cons a l ih =>
    intro i rest hpre
    have ha : checkElement a = Except.ok true := hpre a (List.mem_cons_self a l)
    simp only [List.cons_append, validateFrom, ha]
    calc validateFrom (i + 1) (l.append rest)
        = validateFrom (i + 1) (l ++ rest) := rfl
      _ = validateFrom (i + 1 + l.length) rest :=
          ih (i + 1) rest (fun q hq => hpre q (List.mem_cons_of_mem a hq))
      _ = validateFrom (i + (a :: l).length) rest := by
          congr 1
          simp only [List.length_cons]
          omega

/-- **C2 (counterexample)**: a `null` element fails the required-field check
("question present and truthy" is false — `null` has no fields), yet the code
does not fail with the index-naming structure error: reading `q.question` on
`null` throws a `TypeError` first, so the array `[goodElemJson, null]` is
rejected without naming index 1. -/
theorem validate_null_element_no_index :
    requiredFieldsOk JsonVal.null = false ∧
    (∀ q ∈ [goodElemJson], checkElement q = Except.ok true) ∧
    validateUpload (JsonVal.jarr [goodElemJson, JsonVal.null]) =
      Except.error "TypeError: Cannot read properties of null" ∧
    "TypeError: Cannot read properties of null" ≠
      "Invalid question structure at index 1" := by
  refine ⟨rfl, ?_, rfl, by decide⟩
  intro q hq
  rw [List.mem_singleton] at hq
  subst hq
  rfl

/-- **C2 (amended)**: for every input array whose first `k` elements pass the
per-element check and whose element at index `k` is a *non-null* value failing
the required-field check, validation fails with the structure error naming
index `k` — regardless of what follows, so checking is in order, fail-fast at
the first malformed element, and nothing is accepted (the result is an error,
not a question set).  (`null` elements instead abort with a `TypeError`
caught by the same handler; see the counterexample.) -/
theorem validate_failfast (pre : List JsonVal) (bad : JsonVal) (rest : List JsonVal)
    (hpre : ∀ q ∈ pre, checkElement q = Except.ok true)
    (hnn : bad ≠ JsonVal.null)
    (hbad : requiredFieldsOk bad = false) :
    validateUpload (JsonVal.jarr (pre ++ bad :: rest)) =
      Except.error ("Invalid question structure at index " ++ toString pre.length) := by
  have hfrom : validateFrom 0 (pre ++ bad :: rest) =
      Except.error ("Invalid question structure at index " ++ toString pre.length) := by
    rw [validateFrom_append pre 0 (bad :: rest) hpre]
    simp only [validateFrom, checkElement_ne_null bad hnn, hbad, Nat.zero_add]
  simp only [validateUpload, hfrom]

/-- Witness for C2: a valid element followed by an element missing `choices`
and `answer` is rejected citing index 1. -/
theorem validate_failfast_witness :
    (∀ q ∈ [goodElemJson], checkElement q = Except.ok true) ∧
    badElemJson ≠ JsonVal.null ∧
    requiredFieldsOk badElemJson = false ∧
    validateUpload (JsonVal.jarr ([goodElemJson] ++ badElemJson :: [])) =
      Except.error ("Invalid question structure at index " ++ toString (1 : ℕ)) := by
  have hpre : ∀ q ∈ [goodElemJson], checkElement q = Except.ok true := by
    intro q hq
    rw [List.mem_singleton] at hq
    subst hq
    rfl
  have hnn : badElemJson ≠ JsonVal.null := fun hh => JsonVal.noConfusion hh
  exact ⟨hpre, hnn, rfl, validate_failfast [goodElemJson] badElemJson [] hpre hnn rfl⟩

theorem sessionInv_initial : SessionInv initialState :=
  ⟨List.nodup_nil, by simp [initialState], Or.inl rfl⟩

theorem keys_setAns (m : AnswerMap) (k : ℕ) (v : ℚ) :
    (setAns m k v).map Prod.fst =
      k :: (m.map Prod.fst).filter (fun x => decide (x ≠ k)) := by
  unfold setAns
  rw [List.map_cons, map_fst_filter_ne]

theorem sessionInv_applyOp (s : AppState) (op : Op) (h : SessionInv s) :
    SessionInv (applyOp s op) := by
  obtain ⟨hnd, hbound, hpos⟩ := h
  cases op with
  | upload o =>
    cases o with
    | ok qs =>
      exact ⟨List.nodup_nil, by simp [applyOp, handleFileUpload, loadQuestions],
        Or.inl rfl⟩
    | error e => exact ⟨hnd, hbound, hpos⟩
  | start =>
    simp only [applyOp]
    split_ifs <;> exact ⟨hnd, hbound, hpos⟩
  | select a =>
    simp only [applyOp, handleAnswerSelect]
    split_ifs with hp
    · have hne : s.questions ≠ [] := ((phase_inProgress_iff s).1 hp).1
      have hN0 : 0 < s.questions.length := List.length_pos.2 hne
      have hcur : s.currentQuestion < s.questions.length := by
        rcases hpos with h0 | hlt
        · omega
        · exact hlt
      refine ⟨?_, ?_, hpos⟩
      · show ((setAns s.userAnswers s.currentQuestion a).map Prod.fst).Nodup
        rw [keys_setAns]
        refine List.nodup_cons.2 ⟨?_, List.Nodup.filter _ hnd⟩
        intro hmem
        have := List.of_mem_filter hmem
        simp at this
      · show ∀ k ∈ (setAns s.userAnswers s.currentQuestion a).map Prod.fst,
          k < s.questions.length
        rw [keys_setAns]
        intro k hk
        rcases List.mem_cons.1 hk with hk0 | hk1
        · exact hk0 ▸ hcur
        · exact hbound k (List.mem_of_mem_filter hk1)
    · exact ⟨hnd, hbound, hpos⟩
  | next =>
    simp only [applyOp, nextQuestion]
    split_ifs with hp hg
    · refine ⟨hnd, hbound, Or.inr ?_⟩
      show s.currentQuestion + 1 < s.questions.length
      omega
    · exact ⟨hnd, hbound, hpos⟩
    · exact ⟨hnd, hbound, hpos⟩
  | prev =>
    simp only [applyOp, prevQuestion]
    split_ifs with hp hg
    · refine ⟨hnd, hbound, ?_⟩
      show s.currentQuestion - 1 = 0 ∨ s.currentQuestion - 1 < s.questions.length
      omega
    · exact ⟨hnd, hbound, hpos⟩
    · exact ⟨hnd, hbound, hpos⟩
  | finish =>
    simp only [applyOp]
    split_ifs <;> exact ⟨hnd, hbound, hpos⟩
  | restart =>
    simp only [applyOp]
    split_ifs
    · exact ⟨List.nodup_nil, by simp [restartExam], Or.inl rfl⟩
    · exact ⟨hnd, hbound, hpos⟩
  | reset =>
    simp only [applyOp]
    split_ifs
    · exact ⟨List.nodup_nil, by simp [resetToUpload], Or.inl rfl⟩
    · exact ⟨hnd, hbound, hpos⟩

theorem sessionInv_of_reachable (s : AppState) (h : Reachable s) : SessionInv s := by
  induction h with
  | init => exact sessionInv_initial
  | step s1 op _ ih => exact sessionInv_applyOp s1 op ih

/-- A sample reachable state: upload the two-question set, start the exam,
answer question 0. -/
def exampleReachedState : AppState :=
  applyOp (applyOp (applyOp initialState (Op.upload (Except.ok exampleQs2)))
    Op.start) (Op.select 1)

theorem exampleReachedState_reachable : Reachable exampleReachedState :=
  Reachable.step _ (Op.select 1)
    (Reachable.step _ Op.start
      (Reachable.step _ (Op.upload (Except.ok exampleQs2)) Reachable.init))

/-- **C10**: in every state reachable from the empty initial state via the
exposed user intents, every answer-map key is an in-range question index, and
the summary satisfies `0 ≤ correct ≤ answered ≤ total`. -/
theorem reachable_summary_bounds (s : AppState) (h : Reachable s) :
    (∀ k ∈ s.userAnswers.map Prod.fst, k < s.questions.length) ∧
    0 ≤ (calculateResults s.questions s.userAnswers).correctAnswers ∧
    (calculateResults s.questions s.userAnswers).correctAnswers ≤
      (calculateResults s.questions s.userAnswers).answeredQuestions ∧
    (calculateResults s.questions s.userAnswers).answeredQuestions ≤
      (calculateResults s.questions s.userAnswers).totalQuestions := by
  obtain ⟨hnd, hbound, _⟩ := sessionInv_of_reachable s h
  refine ⟨hbound, Nat.zero_le _, ?_, ?_⟩
  · show correctFrom s.userAnswers 0 s.questions ≤ s.userAnswers.length
    exact correct_le_answered s.questions s.userAnswers
  · show s.userAnswers.length ≤ s.questions.length
    exact answered_le_total s.questions s.userAnswers hnd hbound

/-- Witness for C10 at a concrete reachable state (after upload, start, and
one answer). -/
theorem reachable_summary_bounds_witness :
    (calculateResults exampleReachedState.questions
        exampleReachedState.userAnswers).correctAnswers ≤
      (calculateResults exampleReachedState.questions
        exampleReachedState.userAnswers).answeredQuestions ∧
    (calculateResults exampleReachedState.questions
        exampleReachedState.userAnswers).answeredQuestions ≤
      (calculateResults exampleReachedState.questions
        exampleReachedState.userAnswers).totalQuestions := by
  have h := reachable_summary_bounds exampleReachedState exampleReachedState_reachable
  exact ⟨h.2.2.1, h.2.2.2⟩
